import Mathlib

/-!
Shallow embedding of the provider synchronization engine of
guanana/image_slideshow: the `RefreshResult` data model and
`ImmichProvider` operations (`src/providers/base.py`,
`src/providers/immich.py`) and the force-sync reconciliation step of
`force_sync_provider` (`src/api.py`).

Effectful Python code is modelled by explicit state/trace passing: the
external world (Immich client, filesystem) is a structure of functions
`Env`, and the side effects a call performs (directory creation, network
download calls) are collected in an event trace.  Python dictionaries of
known shape become Lean structures; `dict.copy()` is value copying, which
Lean's immutable values give directly.  Exceptions become `Except`.
-/

namespace ImageSlideshow

/-- Enum `RefreshStatus` from `src/providers/base.py`: status of a refresh
operation.  Constructor names follow the Python enum members. -/
inductive RefreshStatus where
  | SUCCESS
  | PARTIAL
  | FAILED
  | NO_IMAGES
deriving DecidableEq, Repr

/-- Dataclass `RefreshResult` from `src/providers/base.py`: result of a provider
refresh operation, with the same counter defaults (0) and empty error
list default as the Python dataclass. -/
structure RefreshResult where
  status : RefreshStatus
  message : String
  downloaded : Nat := 0
  skipped : Nat := 0
  failed : Nat := 0
  total : Nat := 0
  errors : List String := []
deriving DecidableEq, Repr

/-- The configuration held by an `ImmichProvider` in `self._config` after
`configure` ran: the four keys it always stores.  A provider that was
never configured holds the empty dict; `dict.get` on it returns a falsy
value for every key, which the empty string / `false` represent here. -/
structure ImmichConfig where
  server_url : String
  api_key : String
  album_name : String
  skip_existing : Bool
deriving DecidableEq, Repr

/-- Python `str.rstrip("/")`: drop every trailing `/`. -/
def rstripSlash (s : String) : String :=
  String.mk ((s.data.reverse.dropWhile (fun c => c = '/')).reverse)

/-- Python `str.startswith(p)`. -/
def startswith (s p : String) : Bool :=
  p.data.isPrefixOf s.data

/-- A Python whitespace character, as `str.strip()` with no argument
strips it. -/
def isPyWhitespace (c : Char) : Bool :=
  c = ' ' || c = '\t' || c = '\n' || c = '\r' || c = '\x0b' || c = '\x0c'

/-- Python `str.strip()`: drop leading and trailing whitespace. -/
def pyStrip (s : String) : String :=
  String.mk (((s.data.dropWhile isPyWhitespace).reverse.dropWhile isPyWhitespace).reverse)

/-- Python `str.lower()` (over the ASCII range these names live in). -/
def pyLower (s : String) : String :=
  String.mk (s.data.map Char.toLower)

/-- Splitting a character list on a separator character; every separator
produces a boundary, so the result is never empty (as in Python). -/
def splitOnChar (sep : Char) : List Char → List Char → List (List Char)
  | [], cur => [cur.reverse]
  | c :: rest, cur =>
    if c = sep then cur.reverse :: splitOnChar sep rest []
    else splitOnChar sep rest (c :: cur)

/-- Python `str.split(',')`: `"".split(',')` is `[""]`. -/
def pySplitComma (s : String) : List String :=
  (splitOnChar ',' s.data []).map String.mk

/-- Python `settings.get(k, dflt)` over a raw settings mapping modelled as an
association list of string values. -/
def sget (settings : List (String × String)) (k dflt : String) : String :=
  match settings.find? (fun p => p.1 = k) with
  | some p => p.2
  | none => dflt

/-- Method `ImmichProvider.configure` (`src/providers/immich.py`): absorb a raw
settings mapping into `self._config`.  `str(x).lower() == "true"` on a
string value is `x.toLower = "true"`. -/
def configure (settings : List (String × String)) : ImmichConfig :=
  { server_url := rstripSlash (sget settings "server_url" "")
    api_key := sget settings "api_key" ""
    album_name := sget settings "album_name" ""
    skip_existing := pyLower (sget settings "skip_existing" "True") = "true" }

/-- The `_config` of a provider that was instantiated but never
configured: every `dict.get` yields a falsy value. -/
def emptyConfig : ImmichConfig :=
  { server_url := "", api_key := "", album_name := "", skip_existing := false }

/-- Method `ImmichProvider.validate_config` (`src/providers/immich.py`):
server_url non-empty, then api_key non-empty, then scheme check; first
failing rule returns its message. -/
def validate_config (c : ImmichConfig) : Bool × Option String :=
  if c.server_url = "" then
    (false, some "Server URL is required")
  else if c.api_key = "" then
    (false, some "API Key is required")
  else if ¬(startswith c.server_url "http://" = true ∨ startswith c.server_url "https://" = true) then
    (false, some "Server URL must start with http:// or https://")
  else
    (true, none)

/-- Python `key[:8]`. -/
def strTake (s : String) (n : Nat) : String := String.mk (s.data.take n)

/-- Python `key[-4:]`: the last `n` characters (the whole string when it
is shorter than `n`, matching Python's negative-index slicing). -/
def strTakeRight (s : String) (n : Nat) : String :=
  String.mk (s.data.drop (s.data.length - n))

/-- Method `ImmichProvider.get_config` (`src/providers/immich.py`): copy of the
held config with a truthy (non-empty) api_key replaced by its mask:
`key[:8] + "..." + key[-4:]` when `len(key) > 12`, else `"****"`. -/
def get_config (c : ImmichConfig) : ImmichConfig :=
  if c.api_key ≠ "" then
    { c with api_key :=
        if c.api_key.length > 12 then
          strTake c.api_key 8 ++ "..." ++ strTakeRight c.api_key 4
        else
          "****" }
  else
    c

/-- An asset dict as the download loop reads it: `asset.get("id")` and
`asset.get("originalFileName", ...)`. -/
structure Asset where
  id : String
  originalFileName : Option String
deriving DecidableEq, Repr

/-- An album dict as `_get_assets` reads it (`album["id"]`). -/
structure Album where
  id : String
deriving DecidableEq, Repr

/-- An album-detail dict as `_get_assets` reads it
(`album_detail.get("assets", [])`). -/
structure AlbumDetail where
  assets : List Asset
deriving DecidableEq, Repr

/-- The external world an `ImmichProvider` call touches: availability of
the `immich_lib` package, the Immich client's methods (each may raise:
`Except.error msg` is a raised exception with message `msg`; `Option`
captures falsy/None returns), and the filesystem's `os.path.exists`. -/
structure Env where
  clientAvailable : Bool
  check_auth : Except String Bool
  find_album : String → Except String (Option Album)
  get_album : String → Except String (Option AlbumDetail)
  list_assets : Except String (Option (List Asset))
  fileExists : String → Bool
  download_asset : String → String → Except String Unit

/-- The message of the `ImportError` raised by `_get_client` when
`immich_lib` is missing. -/
def importErrorMsg : String :=
  "immich-lib package is not installed. Install it with: pip install immich-lib"

/-- Method `ImmichProvider.test_connection` (`src/providers/immich.py`):
validate first, then construct the client, then `check_auth`; every
failure mode is returned as `(false, message)`. -/
def test_connection (c : ImmichConfig) (env : Env) : Bool × String :=
  let v := validate_config c
  if v.1 = false then
    (false, "Configuration error: " ++ (v.2.getD ""))
  else if env.clientAvailable = false then
    (false, importErrorMsg)
  else
    match env.check_auth with
    | Except.ok true => (true, "Connected successfully to Immich")
    | Except.ok false => (false, "Authentication failed - check your API key")
    | Except.error e => (false, "Connection failed: " ++ e)

/-- Method `ImmichProvider._get_assets` (`src/providers/immich.py`): album
lookup by stripped name when configured, else the unscoped asset list;
raised exceptions propagate as `Except.error`. -/
def get_assets (c : ImmichConfig) (env : Env) : Except String (List Asset) :=
  let album_name := pyStrip c.album_name
  if album_name ≠ "" then
    match env.find_album album_name with
    | Except.error e => Except.error e
    | Except.ok none => Except.error ("Album '" ++ album_name ++ "' not found")
    | Except.ok (some album) =>
      match env.get_album album.id with
      | Except.error e => Except.error e
      | Except.ok none => Except.error "Could not retrieve album details"
      | Except.ok (some detail) => Except.ok detail.assets
  else
    match env.list_assets with
    | Except.error e => Except.error e
    | Except.ok none => Except.ok []
    | Except.ok (some l) => Except.ok l

/-- A side effect performed by `refresh`: `os.makedirs`, a network fetch
of the asset list, or a `client.download_asset` network call. -/
inductive Event where
  | mkdirEvt (path : String)
  | fetchAssetsCall
  | downloadCall (assetId : String) (path : String)
deriving DecidableEq, Repr

/-- Python `os.path.join(dir, name)` for the paths built here: `name` replaces
the whole path when absolute, else it is appended with a `/`. -/
def joinPath (dir name : String) : String :=
  if startswith name "/" then name else dir ++ "/" ++ name

/-- The destination filename of an asset:
`asset.get("originalFileName", f"{asset_id}.jpg")`. -/
def destFilename (a : Asset) : String :=
  a.originalFileName.getD (a.id ++ ".jpg")

/-- The mutable state of `refresh`'s download loop: the four Python
locals plus the files written so far (a successful `download_asset`
creates its output path, which a later `os.path.exists` sees) and the
events performed. -/
structure LoopState where
  downloaded : Nat
  skipped : Nat
  failed : Nat
  errors : List String
  written : List String
  events : List Event
deriving DecidableEq, Repr

/-- One iteration of the download loop of `ImmichProvider.refresh`:
skip when the destination exists and skip_existing is set, otherwise
attempt the download and count the outcome. -/
def processAsset (env : Env) (skip_existing : Bool) (target : String)
    (st : LoopState) (a : Asset) : LoopState :=
  let filename := destFilename a
  let output_path := joinPath target filename
  if skip_existing ∧ (env.fileExists output_path ∨ output_path ∈ st.written) then
    { st with skipped := st.skipped + 1 }
  else
    match env.download_asset a.id output_path with
    | Except.ok _ =>
      { st with downloaded := st.downloaded + 1,
                written := st.written ++ [output_path],
                events := st.events ++ [Event.downloadCall a.id output_path] }
    | Except.error e =>
      { st with failed := st.failed + 1,
                errors := st.errors ++
                  ["Failed to download " ++ filename ++ ": " ++ e],
                events := st.events ++ [Event.downloadCall a.id output_path] }

/-- The initial state of the download loop. -/
def initLoopState : LoopState :=
  { downloaded := 0, skipped := 0, failed := 0, errors := [], written := [], events := [] }

/-- The download loop of `refresh` over the asset list. -/
def runLoop (env : Env) (skip_existing : Bool) (target : String)
    (assets : List Asset) : LoopState :=
  assets.foldl (processAsset env skip_existing target) initLoopState

/-- Method `ImmichProvider.refresh` (`src/providers/immich.py`): validate, get
the client, `os.makedirs`, fetch assets, run the download loop, derive
status and message from the counters, truncate errors to 10.  Returns
the `RefreshResult` together with the trace of side effects performed. -/
def refresh (c : ImmichConfig) (env : Env) (target_folder : String) :
    RefreshResult × List Event :=
  let v := validate_config c
  if v.1 = false then
    ({ status := RefreshStatus.FAILED,
       message := "Configuration error: " ++ (v.2.getD "") }, [])
  else if env.clientAvailable = false then
    ({ status := RefreshStatus.FAILED, message := importErrorMsg }, [])
  else
    let evs : List Event := [Event.mkdirEvt target_folder, Event.fetchAssetsCall]
    match get_assets c env with
    | Except.error e =>
      ({ status := RefreshStatus.FAILED,
         message := "Failed to fetch assets: " ++ e }, evs)
    | Except.ok assets =>
      if assets.isEmpty then
        ({ status := RefreshStatus.NO_IMAGES,
           message := "No images found in the specified source",
           total := 0 }, evs)
      else
        let st := runLoop env c.skip_existing target_folder assets
        let total := assets.length
        let sm : RefreshStatus × String :=
          if st.failed = 0 then
            (RefreshStatus.SUCCESS,
             "Successfully downloaded " ++ toString st.downloaded ++
               " images (" ++ toString st.skipped ++ " skipped)")
          else if st.downloaded > 0 then
            (RefreshStatus.PARTIAL,
             "Downloaded " ++ toString st.downloaded ++ " images, " ++
               toString st.failed ++ " failed, " ++ toString st.skipped ++ " skipped")
          else
            (RefreshStatus.FAILED,
             "All " ++ toString st.failed ++ " downloads failed")
        ({ status := sm.1, message := sm.2,
           downloaded := st.downloaded, skipped := st.skipped,
           failed := st.failed, total := total,
           errors := st.errors.take 10 }, evs ++ st.events)

/-- A direct child of the target folder as `os.listdir` + `os.path.isfile`
see it: its name and whether it is a regular file. -/
structure DirEntry where
  name : String
  isFile : Bool
deriving DecidableEq, Repr

/-- The index of the last occurrence of `c` in `cs`, if any. -/
def lastIdxOf (cs : List Char) (c : Char) : Option Nat :=
  match cs.reverse.findIdx? (fun x => x = c) with
  | none => none
  | some j => some (cs.length - 1 - j)

/-- The extension part of `os.path.splitext` on a bare filename (no `/`):
the suffix from the last dot, provided some non-dot character precedes
that dot (so names made of leading dots, like `.bashrc`, have no
extension). -/
def splitextExt (s : String) : String :=
  let cs := s.data
  match lastIdxOf cs '.' with
  | none => ""
  | some i =>
    if (cs.take i).any (fun c => ¬(c = '.')) then String.mk (cs.drop i) else ""

/-- The `valid_exts` set of `force_sync_provider` (`src/api.py`):
`{e.strip().lower() for e in ext_str.split(',')}`.  The Python set is
modelled as the list of its elements; only membership and emptiness are
ever asked of it, on which the two agree. -/
def parse_image_extensions (ext_str : String) : List String :=
  (pySplitComma ext_str).map (fun e => pyLower (pyStrip e))

/-- The reconciliation (deletion) phase of `force_sync_provider`
(`src/api.py`): when the target folder exists and its path is longer
than 5 characters, walk its direct children and `os.remove` every
regular file whose lower-cased extension is in `valid_exts` (or
`valid_exts` is empty).  Returns the list of removed paths, in order. -/
def force_sync_reconcile (target_folder : String) (folderExists : Bool)
    (valid_exts : List String) (children : List DirEntry) : List String :=
  if folderExists = true ∧ target_folder.length > 5 then
    children.foldl (fun removed item =>
      if item.isFile then
        if valid_exts.contains (splitextExt (pyLower item.name)) || valid_exts.isEmpty then
          removed ++ [joinPath target_folder item.name]
        else removed
      else removed) []
  else []

/-! Provider instance state and its methods in state-passing form.
`BaseImageProvider.__init__` gives `self._config = {}` and
`self._last_result = None`; `ImmichProvider.get_config` reads
`self._config`, copies it and masks the copy, writing nothing back;
`refresh` stores its result in `self._last_result`. -/

/-- The mutable attributes of an `ImmichProvider` instance (the cached
`_client` handle carries no modelled data beyond its existence, which
`Env.clientAvailable` governs). -/
structure ProviderState where
  config : ImmichConfig
  last_result : Option RefreshResult
deriving DecidableEq, Repr

/-- Method `get_config` on an instance: returns the masked copy and the
instance state after the call (the method writes no attribute). -/
def get_config_m (st : ProviderState) : ImmichConfig × ProviderState :=
  (get_config st.config, st)

/-- Method `refresh` on an instance: runs `refresh` on the held config
and stores the result in `self._last_result`. -/
def refresh_m (st : ProviderState) (env : Env) (target_folder : String) :
    RefreshResult × ProviderState × List Event :=
  let r := refresh st.config env target_folder
  (r.1, { st with last_result := some r.1 }, r.2)

/-- Method `test_connection` on an instance: runs on the held config,
writes no attribute. -/
def test_connection_m (st : ProviderState) (env : Env) :
    (Bool × String) × ProviderState :=
  (test_connection st.config env, st)

/-! Concrete fixtures used by witnesses and counterexamples. -/

/-- A configuration that passes `validate_config`. -/
def cfgValid : ImmichConfig :=
  { server_url := "http://immich.local", api_key := "testkey1",
    album_name := "", skip_existing := true }

/-- An asset with a reported original filename. -/
def assetA : Asset := { id := "a1", originalFileName := some "p1.jpg" }

/-- An asset without a reported original filename. -/
def assetB : Asset := { id := "a2", originalFileName := none }

/-- A benign environment: client importable, auth succeeds, no albums,
empty asset list, nothing on disk, downloads succeed. -/
def envNoAssets : Env :=
  { clientAvailable := true
    check_auth := Except.ok true
    find_album := fun _ => Except.ok none
    get_album := fun _ => Except.ok none
    list_assets := Except.ok (some [])
    fileExists := fun _ => false
    download_asset := fun _ _ => Except.ok () }

/-- Two assets to fetch, both destination files already on disk. -/
def envAllExist : Env :=
  { envNoAssets with
    list_assets := Except.ok (some [assetA, assetB])
    fileExists := fun _ => true }

/-- Two assets to fetch, nothing on disk, every download raises. -/
def envAllFail : Env :=
  { envNoAssets with
    list_assets := Except.ok (some [assetA, assetB])
    download_asset := fun _ _ => Except.error "boom" }

/-- Two assets to fetch, nothing on disk, the download of `assetB`
raises and the download of `assetA` succeeds. -/
def envMixed : Env :=
  { envNoAssets with
    list_assets := Except.ok (some [assetA, assetB])
    download_asset := fun i _ => if i = "a2" then Except.error "boom" else Except.ok () }

/-- Twelve distinct assets, none with a reported filename. -/
def twelveAssets : List Asset :=
  [{ id := "b01", originalFileName := none }, { id := "b02", originalFileName := none },
   { id := "b03", originalFileName := none }, { id := "b04", originalFileName := none },
   { id := "b05", originalFileName := none }, { id := "b06", originalFileName := none },
   { id := "b07", originalFileName := none }, { id := "b08", originalFileName := none },
   { id := "b09", originalFileName := none }, { id := "b10", originalFileName := none },
   { id := "b11", originalFileName := none }, { id := "b12", originalFileName := none }]

/-- Twelve assets to fetch, nothing on disk, every download raises. -/
def envTwelveFail : Env :=
  { envNoAssets with
    list_assets := Except.ok (some twelveAssets)
    download_asset := fun _ _ => Except.error "boom" }

/-- The environment with the client library missing. -/
def envNoClient : Env := { envNoAssets with clientAvailable := false }

/-- The environment whose auth check reports a rejected credential. -/
def envAuthReject : Env := { envNoAssets with check_auth := Except.ok false }

/-- The environment whose auth check raises. -/
def envAuthRaise : Env := { envNoAssets with check_auth := Except.error "timeout" }

/-! Helper lemmas shared by the claim theorems. -/

/-- The deletion fold of `force_sync_reconcile` removes exactly the
matching regular files, in listing order, after whatever was already
accumulated. -/
theorem reconcile_fold_eq (target_folder : String) (valid_exts : List String)
    (children : List DirEntry) (acc : List String) :
    children.foldl (fun removed item =>
      if item.isFile then
        if valid_exts.contains (splitextExt (pyLower item.name)) || valid_exts.isEmpty then
          removed ++ [joinPath target_folder item.name]
        else removed
      else removed) acc
    = acc ++ (children.filter (fun item =>
        item.isFile && (valid_exts.contains (splitextExt (pyLower item.name)) || valid_exts.isEmpty))).map
        (fun item => joinPath target_folder item.name) := by
  induction children generalizing acc with
  | nil => simp
  | cons e rest ih =>
    rw [List.foldl_cons, List.filter_cons]
    by_cases h1 : e.isFile = true
    · by_cases h2 : (valid_exts.contains (splitextExt (pyLower e.name)) || valid_exts.isEmpty) = true
      · have hp : (e.isFile && (valid_exts.contains (splitextExt (pyLower e.name)) || valid_exts.isEmpty)) = true := by
          rw [h1, Bool.true_and]; exact h2
        rw [if_pos h1, if_pos h2, ih, if_pos hp]
        simp
      · have hp : ¬((e.isFile && (valid_exts.contains (splitextExt (pyLower e.name)) || valid_exts.isEmpty)) = true) := by
          rw [h1, Bool.true_and]; exact h2
        rw [if_pos h1, if_neg h2, ih, if_neg hp]
    · have hp : ¬((e.isFile && (valid_exts.contains (splitextExt (pyLower e.name)) || valid_exts.isEmpty)) = true) := by
        rw [Bool.and_eq_true]; rintro ⟨hh, _⟩; exact h1 hh
      rw [if_neg h1, ih, if_neg hp]

/-- Each loop iteration keeps the error list in lockstep with the
`failed` counter. -/
theorem processAsset_errors_len (env : Env) (skip_existing : Bool) (target_folder : String)
    (st : LoopState) (a : Asset)
    (h : st.errors.length = st.failed) :
    (processAsset env skip_existing target_folder st a).errors.length
      = (processAsset env skip_existing target_folder st a).failed := by
  simp only [processAsset]
  split
  · simpa using h
  · split <;> simp [h]

/-- Each loop iteration adds exactly one to exactly one of the three
counters. -/
theorem processAsset_sum (env : Env) (skip_existing : Bool) (target_folder : String)
    (st : LoopState) (a : Asset) :
    (processAsset env skip_existing target_folder st a).downloaded
      + (processAsset env skip_existing target_folder st a).skipped
      + (processAsset env skip_existing target_folder st a).failed
      = st.downloaded + st.skipped + st.failed + 1 := by
  simp only [processAsset]
  split
  · simp; omega
  · split <;> (simp; omega)

/-- Over the whole loop, the error list stays in lockstep with `failed`. -/
theorem runLoop_errors_len (env : Env) (skip_existing : Bool) (target_folder : String)
    (assets : List Asset) (st : LoopState)
    (h : st.errors.length = st.failed) :
    (assets.foldl (processAsset env skip_existing target_folder) st).errors.length
      = (assets.foldl (processAsset env skip_existing target_folder) st).failed := by
  induction assets generalizing st with
  | nil => simpa using h
  | cons a rest ih =>
    rw [List.foldl_cons]
    exact ih _ (processAsset_errors_len env skip_existing target_folder st a h)

/-- Over the whole loop, the three counters together grow by exactly the
number of assets processed. -/
theorem runLoop_sum (env : Env) (skip_existing : Bool) (target_folder : String)
    (assets : List Asset) (st : LoopState) :
    (assets.foldl (processAsset env skip_existing target_folder) st).downloaded
      + (assets.foldl (processAsset env skip_existing target_folder) st).skipped
      + (assets.foldl (processAsset env skip_existing target_folder) st).failed
      = st.downloaded + st.skipped + st.failed + assets.length := by
  induction assets generalizing st with
  | nil => simp
  | cons a rest ih =>
    rw [List.foldl_cons, ih]
    have := processAsset_sum env skip_existing target_folder st a
    simp [List.length_cons]
    omega

/-- When every asset's destination is already on disk and skip_existing
is on, every iteration takes the skip branch. -/
theorem runLoop_all_skip (env : Env) (target_folder : String)
    (assets : List Asset) (st : LoopState)
    (hex : ∀ a ∈ assets, env.fileExists (joinPath target_folder (destFilename a)) = true) :
    assets.foldl (processAsset env true target_folder) st
      = { st with skipped := st.skipped + assets.length } := by
  induction assets generalizing st with
  | nil => simp
  | cons a rest ih =>
    have ha : env.fileExists (joinPath target_folder (destFilename a)) = true :=
      hex a (by simp)
    have hstep : processAsset env true target_folder st a
        = { st with skipped := st.skipped + 1 } := by
      simp only [processAsset]
      rw [if_pos]
      exact ⟨by trivial, Or.inl ha⟩
    rw [List.foldl_cons, hstep, ih _ (fun b hb => hex b (by simp [hb]))]
    simp [Nat.add_assoc, Nat.add_comm 1 rest.length]

/-- Unfolding of `refresh` when the asset fetch succeeds with an empty
list. -/
theorem refresh_empty (c : ImmichConfig) (env : Env) (target_folder : String)
    (hv : (validate_config c).1 = true) (hc : env.clientAvailable = true)
    (ha : get_assets c env = Except.ok []) :
    refresh c env target_folder
      = ({ status := RefreshStatus.NO_IMAGES,
           message := "No images found in the specified source", total := 0 },
         [Event.mkdirEvt target_folder, Event.fetchAssetsCall]) := by
  simp [refresh, hv, hc, ha]

/-- Field-level unfolding of `refresh` when the asset fetch succeeds
with a non-empty list: the result is assembled from the loop state. -/
theorem refresh_fields (c : ImmichConfig) (env : Env) (target_folder : String)
    (assets : List Asset)
    (hv : (validate_config c).1 = true) (hc : env.clientAvailable = true)
    (ha : get_assets c env = Except.ok assets) (hne : assets ≠ []) :
    (refresh c env target_folder).1.downloaded
        = (runLoop env c.skip_existing target_folder assets).downloaded
  ∧ (refresh c env target_folder).1.skipped
        = (runLoop env c.skip_existing target_folder assets).skipped
  ∧ (refresh c env target_folder).1.failed
        = (runLoop env c.skip_existing target_folder assets).failed
  ∧ (refresh c env target_folder).1.total = assets.length
  ∧ (refresh c env target_folder).1.errors
        = (runLoop env c.skip_existing target_folder assets).errors.take 10
  ∧ (refresh c env target_folder).2
        = [Event.mkdirEvt target_folder, Event.fetchAssetsCall]
            ++ (runLoop env c.skip_existing target_folder assets).events
  ∧ (refresh c env target_folder).1.status
        = (if (runLoop env c.skip_existing target_folder assets).failed = 0 then
             RefreshStatus.SUCCESS
           else if (runLoop env c.skip_existing target_folder assets).downloaded > 0 then
             RefreshStatus.PARTIAL
           else RefreshStatus.FAILED) := by
  have hie : assets.isEmpty = false := by
    cases assets with
    | nil => exact absurd rfl hne
    | cons a rest => rfl
  refine ⟨?_, ?_, ?_, ?_, ?_, ?_, ?_⟩ <;>
    simp only [refresh, runLoop, hv, hc, ha, hie] <;>
    (try (split <;> simp_all))
  by_cases hf :
      (List.foldl (processAsset env c.skip_existing target_folder) initLoopState assets).failed = 0
  · simp [hf]
  · by_cases hd :
        0 < (List.foldl (processAsset env c.skip_existing target_folder) initLoopState assets).downloaded
    · simp [hf, hd]
    · simp [hf, hd]

/-! Claim theorems. -/

/-- C5: `validate_config` checks its rules in the fixed order server
address non-empty, credential non-empty, http/https scheme; the first
failing rule yields its message; an empty configuration fails naming the
server address; the result is valid exactly when all three rules hold. -/
theorem C5_validate_config_rules (c : ImmichConfig) :
    (c.server_url = "" → validate_config c = (false, some "Server URL is required"))
  ∧ (c.server_url ≠ "" → c.api_key = "" →
      validate_config c = (false, some "API Key is required"))
  ∧ (c.server_url ≠ "" → c.api_key ≠ "" →
      ¬(startswith c.server_url "http://" = true ∨ startswith c.server_url "https://" = true) →
      validate_config c = (false, some "Server URL must start with http:// or https://"))
  ∧ (validate_config c = (true, none) ↔
      (c.server_url ≠ "" ∧ c.api_key ≠ "" ∧
        (startswith c.server_url "http://" = true ∨ startswith c.server_url "https://" = true)))
  ∧ validate_config emptyConfig = (false, some "Server URL is required") := by
  refine ⟨?_, ?_, ?_, ?_, by decide⟩
  · intro h; simp [validate_config, h]
  · intro h1 h2; simp [validate_config, h1, h2]
  · intro h1 h2 h3; simp [validate_config, h1, h2, h3]
  · constructor
    · intro h
      by_cases h1 : c.server_url = "" <;>
        by_cases h2 : c.api_key = "" <;>
        by_cases h3 : startswith c.server_url "http://" = true ∨ startswith c.server_url "https://" = true <;>
        simp [validate_config, h1, h2, h3] at h ⊢
    · rintro ⟨h1, h2, h3⟩
      simp [validate_config, h1, h2, h3]

/-- Witness for C5 at concrete configurations: the empty address fails
first even with a credential present, and a missing credential is only
reported once an address exists. -/
theorem C5_validate_config_rules_witness :
    validate_config { server_url := "", api_key := "k", album_name := "", skip_existing := true }
        = (false, some "Server URL is required")
  ∧ validate_config { server_url := "http://immich.local", api_key := "", album_name := "", skip_existing := true }
        = (false, some "API Key is required") :=
  ⟨(C5_validate_config_rules _).1 rfl,
   (C5_validate_config_rules _).2.1 (by decide) rfl⟩

/-- C4 counterexample: for the secret "****" (length 4, so in the
claimed 0 < length ≤ 12 range) the fixed placeholder returned by
`get_config` is the secret itself, so it does contain a (non-empty)
substring of the secret, contradicting the claim's "containing no
substring of the secret". -/
theorem C4_counterexample :
    0 < ("****" : String).length
  ∧ ("****" : String).length ≤ 12
  ∧ (get_config { emptyConfig with api_key := "****" }).api_key = "****"
  ∧ ("****" : String).data <:+:
      ((get_config { emptyConfig with api_key := "****" }).api_key).data := by
  refine ⟨by decide, by decide, by decide, ?_⟩
  exact ⟨[], [], by decide⟩

/-- C4 amended: `get_config` masks a secret longer than 12 characters to
its first 8 characters, an ellipsis and its last 4 characters, and masks
a secret of length 1..12 to the fixed placeholder "****" (which is not
guaranteed to avoid substrings of the secret). -/
theorem C4_get_config_masking (c : ImmichConfig) :
    (12 < c.api_key.length →
      (get_config c).api_key = strTake c.api_key 8 ++ "..." ++ strTakeRight c.api_key 4)
  ∧ (0 < c.api_key.length → c.api_key.length ≤ 12 →
      (get_config c).api_key = "****")
  ∧ (get_config { c with api_key := "abcdefghijklm" }).api_key = "abcdefgh...jklm"
  ∧ (get_config { c with api_key := "short" }).api_key = "****" := by
  refine ⟨?_, ?_, by rfl, by rfl⟩
  · intro h
    have hne : c.api_key ≠ "" := by
      intro he
      rw [he] at h
      simp at h
    simp [get_config, hne, h]

  · intro h0 h12
    have hne : c.api_key ≠ "" := by
      intro he
      rw [he] at h0
      simp at h0
    have hnl : ¬(c.api_key.length > 12) := by omega
    simp [get_config, hne, hnl]

/-- Witness for C4 amended at the spec's own examples: the length-13
secret reveals head and tail around an ellipsis, the short secret maps
to the fixed placeholder. -/
theorem C4_get_config_masking_witness :
    (get_config { emptyConfig with api_key := "short" }).api_key = "****"
  ∧ (get_config { emptyConfig with api_key := "abcdefghijklm" }).api_key
      = strTake "abcdefghijklm" 8 ++ "..." ++ strTakeRight "abcdefghijklm" 4 :=
  ⟨(C4_get_config_masking { emptyConfig with api_key := "short" }).2.1 (by decide) (by decide),
   (C4_get_config_masking { emptyConfig with api_key := "abcdefghijklm" }).1 (by decide)⟩

/-- C2: for every target-folder state, the force-sync reconciliation
step removes exactly the direct children that are regular files whose
lower-cased extension is in the recognized set (an empty set matching
every file), leaves every other child untouched, skips deletion
entirely when the resolved path has 5 or fewer characters, and on the
spec's scenario (children a.jpg and b.txt, set containing .jpg) removes
exactly a.jpg. -/
theorem C2_force_sync_reconcile_deletes_exactly (target_folder : String)
    (valid_exts : List String) (children : List DirEntry) :
    (5 < target_folder.length →
      force_sync_reconcile target_folder true valid_exts children
        = (children.filter (fun item =>
            item.isFile && (valid_exts.contains (splitextExt (pyLower item.name)) || valid_exts.isEmpty))).map
            (fun item => joinPath target_folder item.name))
  ∧ (target_folder.length ≤ 5 →
      force_sync_reconcile target_folder true valid_exts children = [])
  ∧ force_sync_reconcile "/tmp/photos" true [".jpg"]
      [{ name := "a.jpg", isFile := true }, { name := "b.txt", isFile := true }]
      = ["/tmp/photos/a.jpg"] := by
  refine ⟨?_, ?_, by decide⟩
  · intro h
    rw [force_sync_reconcile, if_pos ⟨rfl, h⟩, reconcile_fold_eq]
    simp
  · intro h
    rw [force_sync_reconcile, if_neg]
    rintro ⟨-, hgt⟩
    omega

/-- Witness for C2 at a concrete folder state: the matching file is
removed (by its full path), the non-matching file and the subdirectory
survive, and a 2-character path disables deletion. -/
theorem C2_force_sync_reconcile_witness :
    force_sync_reconcile "/tmp/photos" true [".jpg", ".png"]
        [{ name := "a.jpg", isFile := true }, { name := "b.txt", isFile := true },
         { name := "sub", isFile := false }]
      = (([{ name := "a.jpg", isFile := true }, { name := "b.txt", isFile := true },
           { name := "sub", isFile := false }] : List DirEntry).filter (fun item =>
            item.isFile && (([".jpg", ".png"] : List String).contains (splitextExt (pyLower item.name))
              || ([".jpg", ".png"] : List String).isEmpty))).map
          (fun item => joinPath "/tmp/photos" item.name)
  ∧ force_sync_reconcile "/a" true [".jpg"] [{ name := "a.jpg", isFile := true }] = [] :=
  ⟨(C2_force_sync_reconcile_deletes_exactly "/tmp/photos" [".jpg", ".png"] _).1 (by decide),
   (C2_force_sync_reconcile_deletes_exactly "/a" [".jpg"] _).2.1 (by decide)⟩

/-- C10: the `get_config` method does not mutate the provider instance:
the state after the call is the state before it, only the api_key field
differs in the returned copy, two consecutive calls return equal
mappings, and a subsequent `refresh` or `test_connection` still runs on
the original unmasked credential. -/
theorem C10_get_config_no_mutation (st : ProviderState) (env : Env) (target_folder : String) :
    (get_config_m st).2 = st
  ∧ (get_config_m st).1.server_url = st.config.server_url
  ∧ (get_config_m st).1.album_name = st.config.album_name
  ∧ (get_config_m st).1.skip_existing = st.config.skip_existing
  ∧ (get_config_m st).1 = (get_config_m (get_config_m st).2).1
  ∧ (get_config_m st).2.config.api_key = st.config.api_key
  ∧ refresh_m (get_config_m st).2 env target_folder = refresh_m st env target_folder
  ∧ test_connection_m (get_config_m st).2 env = test_connection_m st env := by
  have hs : ∀ c : ImmichConfig, (get_config c).server_url = c.server_url ∧
      (get_config c).album_name = c.album_name ∧
      (get_config c).skip_existing = c.skip_existing := by
    intro c
    unfold get_config
    split <;> exact ⟨rfl, rfl, rfl⟩
  exact ⟨rfl, (hs st.config).1, (hs st.config).2.1, (hs st.config).2.2, rfl, rfl, rfl, rfl⟩

/-- C1 counterexample: an execution of `refresh` with an invalid (here
empty) configuration returns a `RefreshResult` with `total = 0` whose
status is FAILED, not NO_IMAGES, so the §4.3 table does not govern every
execution. -/
theorem C1_counterexample :
    (refresh emptyConfig envNoAssets "/tmp/images").1.total = 0
  ∧ (refresh emptyConfig envNoAssets "/tmp/images").1.downloaded = 0
  ∧ (refresh emptyConfig envNoAssets "/tmp/images").1.failed = 0
  ∧ (refresh emptyConfig envNoAssets "/tmp/images").1.status ≠ RefreshStatus.NO_IMAGES := by
  refine ⟨by decide, by decide, by decide, by decide⟩

/-- C1 amended: for every execution of `refresh` that enumerates its
assets successfully (valid configuration, client available, fetch
returns), the status of the result follows the §4.3 counter table;
executions that fail before enumeration return status FAILED with all
counters zero. -/
theorem C1_status_from_counters (c : ImmichConfig) (env : Env)
    (target_folder : String) (assets : List Asset)
    (hv : (validate_config c).1 = true) (hc : env.clientAvailable = true)
    (ha : get_assets c env = Except.ok assets) :
    ((refresh c env target_folder).1.total = 0 →
      (refresh c env target_folder).1.status = RefreshStatus.NO_IMAGES)
  ∧ ((refresh c env target_folder).1.failed = 0 → 0 < (refresh c env target_folder).1.total →
      (refresh c env target_folder).1.status = RefreshStatus.SUCCESS)
  ∧ (0 < (refresh c env target_folder).1.failed → 0 < (refresh c env target_folder).1.downloaded →
      (refresh c env target_folder).1.status = RefreshStatus.PARTIAL)
  ∧ (0 < (refresh c env target_folder).1.failed → (refresh c env target_folder).1.downloaded = 0 →
      (refresh c env target_folder).1.status = RefreshStatus.FAILED) := by
  cases assets with
  | nil =>
    have he := refresh_empty c env target_folder hv hc ha
    rw [he]
    exact ⟨fun _ => rfl, fun _ h0 => by simp at h0,
           fun hf _ => by simp at hf, fun hf _ => by simp at hf⟩
  | cons a rest =>
    obtain ⟨hd, hs, hf, ht, -, -, hst⟩ :=
      refresh_fields c env target_folder (a :: rest) hv hc ha (by simp)
    refine ⟨fun h0 => ?_, fun hf0 h0 => ?_, fun hfp hdp => ?_, fun hfp hd0 => ?_⟩
    · rw [ht] at h0
      simp at h0
    · rw [hf] at hf0
      rw [hst, if_pos hf0]
    · rw [hf] at hfp
      rw [hd] at hdp
      rw [hst, if_neg (by omega), if_pos hdp]
    · rw [hf] at hfp
      rw [hd] at hd0
      rw [hst, if_neg (by omega), if_neg (by omega)]

/-- Witness for C1 amended: a mixed run (one success, one failure)
lands in the PARTIAL row of the table. -/
theorem C1_status_from_counters_witness :
    (refresh cfgValid envMixed "/tmp/images").1.status = RefreshStatus.PARTIAL :=
  (C1_status_from_counters cfgValid envMixed "/tmp/images" [assetA, assetB]
      (by decide) rfl rfl).2.2.1 (by decide) (by decide)

/-- C3: when `validate_config` rejects the held configuration, `refresh`
returns a FAILED result whose message reports the configuration error
and performs no side effect at all (no network call, no folder
creation); when the configuration is valid and the client library is
available, the very first side effect of `refresh` is ensuring the
target folder exists, before the asset fetch and any download. -/
theorem C3_refresh_validation_gate (c : ImmichConfig) (env : Env) (target_folder : String) :
    (∀ e, validate_config c = (false, some e) →
      refresh c env target_folder
        = ({ status := RefreshStatus.FAILED, message := "Configuration error: " ++ e }, []))
  ∧ ((validate_config c).1 = true → env.clientAvailable = true →
      ∃ rest, (refresh c env target_folder).2
        = Event.mkdirEvt target_folder :: Event.fetchAssetsCall :: rest) := by
  constructor
  · intro e h
    simp [refresh, h]
  · intro hv hc
    simp only [refresh, hv, hc]
    cases hga : get_assets c env with
    | error e => exact ⟨[], by simp⟩
    | ok assets =>
      cases assets with
      | nil => exact ⟨[], by simp⟩
      | cons a rest =>
        refine ⟨(List.foldl (processAsset env c.skip_existing target_folder) initLoopState
            (a :: rest)).events, ?_⟩
        simp [runLoop]

/-- Witness for C3: the empty configuration short-circuits with the
validation message and an empty effect trace, and a valid configuration
puts the folder-creation effect first. -/
theorem C3_refresh_validation_gate_witness :
    refresh emptyConfig envNoAssets "/tmp/images"
      = ({ status := RefreshStatus.FAILED,
           message := "Configuration error: Server URL is required" }, [])
  ∧ ∃ rest, (refresh cfgValid envNoAssets "/tmp/images").2
      = Event.mkdirEvt "/tmp/images" :: Event.fetchAssetsCall :: rest :=
  ⟨(C3_refresh_validation_gate emptyConfig envNoAssets "/tmp/images").1
      "Server URL is required" rfl,
   (C3_refresh_validation_gate cfgValid envNoAssets "/tmp/images").2 (by decide) rfl⟩

/-- C6: with skip_existing enabled and every candidate's destination
file already present, `refresh` downloads nothing: downloaded = 0,
skipped = total = number of assets, failed = 0, status SUCCESS, and no
download call appears in the effect trace; moreover any single asset
whose destination exists is skipped without touching anything but the
skipped counter. -/
theorem C6_skip_existing_all_present (c : ImmichConfig) (env : Env)
    (target_folder : String) (assets : List Asset)
    (hv : (validate_config c).1 = true) (hc : env.clientAvailable = true)
    (ha : get_assets c env = Except.ok assets) (hne : assets ≠ [])
    (hskip : c.skip_existing = true)
    (hex : ∀ a ∈ assets, env.fileExists (joinPath target_folder (destFilename a)) = true) :
    (refresh c env target_folder).1.downloaded = 0
  ∧ (refresh c env target_folder).1.skipped = assets.length
  ∧ (refresh c env target_folder).1.failed = 0
  ∧ (refresh c env target_folder).1.total = assets.length
  ∧ (refresh c env target_folder).1.status = RefreshStatus.SUCCESS
  ∧ (∀ i p, Event.downloadCall i p ∉ (refresh c env target_folder).2)
  ∧ (∀ (st : LoopState) (a : Asset),
      env.fileExists (joinPath target_folder (destFilename a)) = true →
      processAsset env c.skip_existing target_folder st a
        = { st with skipped := st.skipped + 1 }) := by
  obtain ⟨hd, hs, hf, ht, -, hev, hst⟩ :=
    refresh_fields c env target_folder assets hv hc ha hne
  have hloop : runLoop env c.skip_existing target_folder assets
      = { initLoopState with skipped := 0 + assets.length } := by
    rw [runLoop, hskip]
    exact runLoop_all_skip env target_folder assets initLoopState hex
  refine ⟨?_, ?_, ?_, ht, ?_, ?_, ?_⟩
  · simp [hd, hloop, initLoopState]
  · simp [hs, hloop, initLoopState]
  · simp [hf, hloop, initLoopState]
  · simp [hst, hloop, initLoopState]
  · intro i p hmem
    rw [hev, hloop] at hmem
    simp [initLoopState] at hmem
  · intro st a hfa
    simp only [processAsset]
    rw [if_pos ⟨hskip, Or.inl hfa⟩]

/-- Witness for C6 at a concrete state: two assets, both destination
files on disk, nothing downloaded, everything skipped, success. -/
theorem C6_skip_existing_all_present_witness :
    (refresh cfgValid envAllExist "/tmp/images").1.downloaded = 0
  ∧ (refresh cfgValid envAllExist "/tmp/images").1.skipped = 2
  ∧ (refresh cfgValid envAllExist "/tmp/images").1.failed = 0
  ∧ (refresh cfgValid envAllExist "/tmp/images").1.status = RefreshStatus.SUCCESS :=
  have h := C6_skip_existing_all_present cfgValid envAllExist "/tmp/images"
    [assetA, assetB] (by decide) rfl rfl (by decide) rfl (fun a _ => rfl)
  ⟨h.1, h.2.1, h.2.2.1, h.2.2.2.2.1⟩

/-- C7: a per-asset download failure increments `failed`, appends its
error message and does not abort the loop (all assets still land in
exactly one counter); the result keeps at most the first 10 error
strings of the loop while `failed` counts every failure. -/
theorem C7_failure_isolation_and_error_cap (c : ImmichConfig) (env : Env)
    (target_folder : String) (assets : List Asset)
    (hv : (validate_config c).1 = true) (hc : env.clientAvailable = true)
    (ha : get_assets c env = Except.ok assets) (hne : assets ≠ []) :
    (refresh c env target_folder).1.errors
        = (runLoop env c.skip_existing target_folder assets).errors.take 10
  ∧ (refresh c env target_folder).1.failed
        = (runLoop env c.skip_existing target_folder assets).errors.length
  ∧ (10 < (runLoop env c.skip_existing target_folder assets).errors.length →
        (refresh c env target_folder).1.errors.length = 10)
  ∧ (refresh c env target_folder).1.downloaded + (refresh c env target_folder).1.skipped
        + (refresh c env target_folder).1.failed = assets.length
  ∧ (∀ (st : LoopState) (a : Asset) (e : String),
      ¬(c.skip_existing = true ∧
        (env.fileExists (joinPath target_folder (destFilename a)) = true
          ∨ joinPath target_folder (destFilename a) ∈ st.written)) →
      env.download_asset a.id (joinPath target_folder (destFilename a)) = Except.error e →
      processAsset env c.skip_existing target_folder st a
        = { st with failed := st.failed + 1,
                    errors := st.errors
                      ++ ["Failed to download " ++ destFilename a ++ ": " ++ e],
                    events := st.events
                      ++ [Event.downloadCall a.id (joinPath target_folder (destFilename a))] }) := by
  obtain ⟨hd, hs, hf, ht, herr, -, -⟩ :=
    refresh_fields c env target_folder assets hv hc ha hne
  have hlen : (runLoop env c.skip_existing target_folder assets).errors.length
      = (runLoop env c.skip_existing target_folder assets).failed := by
    rw [runLoop]
    exact runLoop_errors_len env c.skip_existing target_folder assets initLoopState rfl
  refine ⟨herr, ?_, ?_, ?_, ?_⟩
  · rw [hf, hlen]
  · intro hgt
    rw [herr]
    simp [List.length_take]
    omega
  · rw [hd, hs, hf, runLoop]
    have := runLoop_sum env c.skip_existing target_folder assets initLoopState
    simpa [initLoopState] using this
  · intro st a e hns hde
    simp only [processAsset]
    rw [if_neg hns, hde]

/-- Witness for C7 at a concrete run of twelve failing downloads: the
error list is capped at 10 entries while `failed` still counts 12. -/
theorem C7_failure_isolation_witness :
    (refresh cfgValid envTwelveFail "/tmp/images").1.errors.length = 10
  ∧ (refresh cfgValid envTwelveFail "/tmp/images").1.failed = 12 :=
  have h := C7_failure_isolation_and_error_cap cfgValid envTwelveFail "/tmp/images"
    twelveAssets (by decide) rfl rfl (by decide)
  ⟨h.2.2.1 (by decide), h.2.1.trans (by decide)⟩

/-- C8: `test_connection` checks the configuration first and, when it is
invalid, short-circuits with a configuration-error message without
consulting the environment at all; it returns success exactly when the
configuration is valid, the client library is available and the auth
check succeeds, and each failure mode (missing library, raised
exception, rejected credential) resolves to (false, message). -/
theorem C8_test_connection_total (c : ImmichConfig) (env : Env) :
    (∀ e, validate_config c = (false, some e) →
      ∀ env2 : Env, test_connection c env2 = (false, "Configuration error: " ++ e))
  ∧ ((test_connection c env).1 = true ↔
      ((validate_config c).1 = true ∧ env.clientAvailable = true
        ∧ env.check_auth = Except.ok true))
  ∧ ((validate_config c).1 = true → env.clientAvailable = false →
      test_connection c env = (false, importErrorMsg))
  ∧ (∀ e, (validate_config c).1 = true → env.clientAvailable = true →
      env.check_auth = Except.error e →
      test_connection c env = (false, "Connection failed: " ++ e))
  ∧ ((validate_config c).1 = true → env.clientAvailable = true →
      env.check_auth = Except.ok false →
      test_connection c env = (false, "Authentication failed - check your API key")) := by
  refine ⟨?_, ?_, ?_, ?_, ?_⟩
  · intro e h env2
    simp [test_connection, h]
  · cases hval : (validate_config c).1 <;>
      cases hca : env.clientAvailable <;>
      rcases hau : env.check_auth with e | b
    all_goals try cases b
    all_goals simp [test_connection, hval, hca, hau]
  · intro hv hc
    simp [test_connection, hv, hc]
  · intro e hv hc hau
    simp [test_connection, hv, hc, hau]
  · intro hv hc hau
    simp [test_connection, hv, hc, hau]

/-- Witness for C8 at concrete environments: configuration error,
missing client library, raised reachability check, rejected credential
each yield (false, message), and the healthy environment connects. -/
theorem C8_test_connection_total_witness :
    test_connection emptyConfig envNoAssets
        = (false, "Configuration error: Server URL is required")
  ∧ test_connection cfgValid envNoClient = (false, importErrorMsg)
  ∧ test_connection cfgValid envAuthRaise = (false, "Connection failed: timeout")
  ∧ test_connection cfgValid envAuthReject
        = (false, "Authentication failed - check your API key")
  ∧ (test_connection cfgValid envNoAssets).1 = true :=
  ⟨(C8_test_connection_total emptyConfig envNoAssets).1 "Server URL is required" rfl envNoAssets,
   (C8_test_connection_total cfgValid envNoClient).2.2.1 (by decide) rfl,
   (C8_test_connection_total cfgValid envAuthRaise).2.2.2.1 "timeout" (by decide) rfl rfl,
   (C8_test_connection_total cfgValid envAuthReject).2.2.2.2 (by decide) rfl rfl,
   (C8_test_connection_total cfgValid envNoAssets).2.1.mpr ⟨by decide, rfl, rfl⟩⟩

/-- C9: whenever `refresh` reaches the download loop, every enumerated
asset lands in exactly one of the three counters, so
downloaded + skipped + failed equals total, which equals the number of
enumerated assets. -/
theorem C9_counters_partition_total (c : ImmichConfig) (env : Env)
    (target_folder : String) (assets : List Asset)
    (hv : (validate_config c).1 = true) (hc : env.clientAvailable = true)
    (ha : get_assets c env = Except.ok assets) (hne : assets ≠ []) :
    (refresh c env target_folder).1.downloaded + (refresh c env target_folder).1.skipped
        + (refresh c env target_folder).1.failed = (refresh c env target_folder).1.total
  ∧ (refresh c env target_folder).1.total = assets.length := by
  obtain ⟨hd, hs, hf, ht, -, -, -⟩ :=
    refresh_fields c env target_folder assets hv hc ha hne
  refine ⟨?_, ht⟩
  rw [hd, hs, hf, ht, runLoop]
  have := runLoop_sum env c.skip_existing target_folder assets initLoopState
  simpa [initLoopState] using this

/-- Witness for C9 at a mixed concrete run: one success, one failure,
nothing skipped, and the counters still partition the total. -/
theorem C9_counters_partition_total_witness :
    (refresh cfgValid envMixed "/tmp/images").1.downloaded
        + (refresh cfgValid envMixed "/tmp/images").1.skipped
        + (refresh cfgValid envMixed "/tmp/images").1.failed
      = (refresh cfgValid envMixed "/tmp/images").1.total :=
  (C9_counters_partition_total cfgValid envMixed "/tmp/images" [assetA, assetB]
      (by decide) rfl rfl (by decide)).1

end ImageSlideshow
